import Mathlib

/-!
Shallow embedding of the caching-proxy layer of the solar-sim backend
(`src/backend/apps/proxy/views.py`, with constants from
`src/backend/config/settings.py`).

Modelling conventions:
* JSON values are an inductive `Json`; raw byte payloads are `List Nat`
  (each entry a byte value).
* The Django cache is modelled as the view the handler sees at request
  time: a function `String → Option CacheVal` for `cache.get`, and the
  cache writes of the handler are returned as an explicit write list in
  `Effects` (key, value, TTL), together with the list of cache lookups
  performed and the number of upstream HTTP calls issued.
* The upstream HTTP client is modelled by an `UpOutcome` argument: the
  outcome the single upstream call would have (`timeout` for
  `httpx.TimeoutException`, `response code body` for a completed HTTP
  response — `raise_for_status` then raises `httpx.HTTPStatusError`
  exactly when the code is not 2xx —, `otherError` for any other
  exception, carrying the Python `str(e)` text).
* Python truthiness (`if cached:`) is modelled by `cacheValTruthy`.
-/

namespace SolarSim

/-- JSON values, as produced by `response.json()` / stored in the cache. -/
inductive Json where
  | null
  | bool (b : Bool)
  | num (q : ℚ)
  | str (s : String)
  | arr (elems : List Json)
  | obj (fields : List (String × Json))

/-- Python truthiness of a decoded JSON value: `None`, `False`, `0`,
`""`, `[]` and `{}` are falsy, everything else truthy. -/
def jsonTruthy : Json → Bool
  | .null => false
  | .bool b => b
  | .num q => decide (q ≠ 0)
  | .str s => decide (s ≠ "")
  | .arr l => !l.isEmpty
  | .obj l => !l.isEmpty

/-- A value stored in the cache: parsed JSON (Overpass/Climate) or raw
tile bytes (Canopy). -/
inductive CacheVal where
  | json (j : Json)
  | bytes (b : List Nat)

/-- Python truthiness of a cached value (empty bytes are falsy). -/
def cacheValTruthy : CacheVal → Bool
  | .json j => jsonTruthy j
  | .bytes b => !b.isEmpty

/-- Truthiness of the result of `cache.get`: `None` (miss) is falsy. -/
def optTruthy : Option CacheVal → Bool
  | none => false
  | some v => cacheValTruthy v

/-- Response body: DRF `Response` with JSON, raw `HttpResponse` bytes
(`image/tiff`), or a streamed local file (`FileResponse`, `image/tiff`). -/
inductive Body where
  | jsonB (j : Json)
  | bytesB (b : List Nat)
  | fileB (b : List Nat)

/-- An HTTP response produced by a handler. -/
structure HResp where
  status : Nat
  body : Body

/-- The structured error body `{"error": msg}`. -/
def errBody (msg : String) : Body := .jsonB (.obj [("error", .str msg)])

/-- Observable side effects of one request: cache keys looked up, number
of upstream HTTP calls, and cache writes `(key, value, ttl)`. -/
structure Effects where
  lookups : List String
  upstreamCalls : Nat
  writes : List (String × CacheVal × Nat)

/-- No side effects at all. -/
def noEffects : Effects := ⟨[], 0, []⟩

/-- Outcome of the (at most one) upstream HTTP call a handler makes. -/
inductive UpOutcome (β : Type) where
  | timeout (emsg : String)
  | response (code : Nat) (body : β)
  | otherError (emsg : String)

/-- httpx `Response.is_success`, the condition under which
`raise_for_status()` does not raise. -/
def is2xx (code : Nat) : Bool := 200 ≤ code && code < 300

/-- Model of `settings.CACHE_TTL_OVERPASS = 60 * 60 * 24 * 7` (7 days). -/
def CACHE_TTL_OVERPASS : Nat := 60 * 60 * 24 * 7

/-- Model of `settings.CACHE_TTL_CLIMATE = 60 * 60 * 24 * 30` (30 days). -/
def CACHE_TTL_CLIMATE : Nat := 60 * 60 * 24 * 30

/-- Model of `settings.CACHE_TTL_CANOPY = 60 * 60 * 24 * 365` (1 year). -/
def CACHE_TTL_CANOPY : Nat := 60 * 60 * 24 * 365

/-! ### SHA-256 (model of Python `hashlib.sha256`)

The Overpass handler derives its cache key from
`hashlib.sha256(query.encode()).hexdigest()[:16]`.  `hashlib` is the
CPython standard library, embedded here as the FIPS 180-4 SHA-256
algorithm over byte lists, with 32-bit words as `Nat` reduced `% 2^32`. -/

/-- The word modulus `2^32`. -/
def M32 : Nat := 4294967296

/-- Right-rotation of a 32-bit word (value assumed `< 2^32`). -/
def rotr (n x : Nat) : Nat := x / 2 ^ n + x % 2 ^ n * 2 ^ (32 - n)

/-- SHA-256 `Ch(e,f,g) = (e ∧ f) ⊕ (¬e ∧ g)`. -/
def shaCh (e f g : Nat) : Nat := (e &&& f) ^^^ ((M32 - 1 - e) &&& g)

/-- SHA-256 `Maj(a,b,c)`. -/
def shaMaj (a b c : Nat) : Nat := (a &&& b) ^^^ (a &&& c) ^^^ (b &&& c)

/-- SHA-256 `Σ₀`. -/
def bigSigma0 (a : Nat) : Nat := rotr 2 a ^^^ rotr 13 a ^^^ rotr 22 a

/-- SHA-256 `Σ₁`. -/
def bigSigma1 (e : Nat) : Nat := rotr 6 e ^^^ rotr 11 e ^^^ rotr 25 e

/-- SHA-256 `σ₀`. -/
def smallSigma0 (x : Nat) : Nat := rotr 7 x ^^^ rotr 18 x ^^^ x / 2 ^ 3

/-- SHA-256 `σ₁`. -/
def smallSigma1 (x : Nat) : Nat := rotr 17 x ^^^ rotr 19 x ^^^ x / 2 ^ 10

/-- The eight 32-bit words of a SHA-256 hash state. -/
structure Hash8 where
  h0 : Nat
  h1 : Nat
  h2 : Nat
  h3 : Nat
  h4 : Nat
  h5 : Nat
  h6 : Nat
  h7 : Nat

/-- SHA-256 initial hash value (FIPS 180-4, written in decimal). -/
def shaInit : Hash8 :=
  ⟨1779033703, 3144134277, 1013904242, 2773480762,
   1359893119, 2600822924, 528734635, 1541459225⟩

/-- The 64 SHA-256 round constants (FIPS 180-4, written in decimal). -/
def shaK : List Nat :=
  [1116352408, 1899447441, 3049323471, 3921009573,
   961987163, 1508970993, 2453635748, 2870763221,
   3624381080, 310598401, 607225278, 1426881987,
   1925078388, 2162078206, 2614888103, 3248222580,
   3835390401, 4022224774, 264347078, 604807628,
   770255983, 1249150122, 1555081692, 1996064986,
   2554220882, 2821834349, 2952996808, 3210313671,
   3336571891, 3584528711, 113926993, 338241895,
   666307205, 773529912, 1294757372, 1396182291,
   1695183700, 1986661051, 2177026350, 2456956037,
   2730485921, 2820302411, 3259730800, 3345764771,
   3516065817, 3600352804, 4094571909, 275423344,
   430227734, 506948616, 659060556, 883997877,
   958139571, 1322822218, 1537002063, 1747873779,
   1955562222, 2024104815, 2227730452, 2361852424,
   2428436474, 2756734187, 3204031479, 3329325298]

/-- Extend 16 message words to the 64-word message schedule. -/
def shaSchedule (block : List Nat) : List Nat :=
  (List.range 48).foldl
    (fun w _ =>
      let n := w.length
      w ++ [(w.getD (n - 16) 0 + smallSigma0 (w.getD (n - 15) 0) + w.getD (n - 7) 0
             + smallSigma1 (w.getD (n - 2) 0)) % M32])
    block

/-- One SHA-256 compression round; `kw` is the pair of round constant
and schedule word. -/
def shaRound (s : Hash8) (kw : Nat × Nat) : Hash8 :=
  let t1 := (s.h7 + bigSigma1 s.h4 + shaCh s.h4 s.h5 s.h6 + kw.1 + kw.2) % M32
  let t2 := (bigSigma0 s.h0 + shaMaj s.h0 s.h1 s.h2) % M32
  ⟨(t1 + t2) % M32, s.h0, s.h1, s.h2, (s.h3 + t1) % M32, s.h4, s.h5, s.h6⟩

/-- Compress one 16-word block into the running hash state. -/
def shaCompress (h : Hash8) (block : List Nat) : Hash8 :=
  let s := (shaK.zip (shaSchedule block)).foldl shaRound h
  ⟨(h.h0 + s.h0) % M32, (h.h1 + s.h1) % M32, (h.h2 + s.h2) % M32, (h.h3 + s.h3) % M32,
   (h.h4 + s.h4) % M32, (h.h5 + s.h5) % M32, (h.h6 + s.h6) % M32, (h.h7 + s.h7) % M32⟩

/-- Big-endian 8-byte encoding of a number (used for the length field). -/
def be64 (n : Nat) : List Nat :=
  [n / 2 ^ 56 % 256, n / 2 ^ 48 % 256, n / 2 ^ 40 % 256, n / 2 ^ 32 % 256,
   n / 2 ^ 24 % 256, n / 2 ^ 16 % 256, n / 2 ^ 8 % 256, n % 256]

/-- SHA-256 padding: append `0x80`, zero bytes to 56 mod 64, then the
message bit length as 8 big-endian bytes. -/
def shaPad (msg : List Nat) : List Nat :=
  msg ++ 128 :: List.replicate ((120 - (msg.length + 1) % 64) % 64) 0
      ++ be64 (msg.length * 8 % 2 ^ 64)

/-- A big-endian 32-bit word from (at most) four bytes. -/
def word4 (l : List Nat) : Nat := l.foldl (fun a b => a * 256 + b) 0

/-- Split a byte list into `n` big-endian 32-bit words. -/
def toWordsN : Nat → List Nat → List Nat
  | 0, _ => []
  | n + 1, l => word4 (l.take 4) :: toWordsN n (l.drop 4)

/-- Split a padded byte list into 64-byte blocks of 16 words
(fuel-driven; the fuel only needs to dominate the block count). -/
def toBlocksN : Nat → List Nat → List (List Nat)
  | 0, _ => []
  | n + 1, l => if l.isEmpty then [] else toWordsN 16 (l.take 64) :: toBlocksN n (l.drop 64)

/-- SHA-256 of a byte list, as the final eight-word state. -/
def sha256Words (msg : List Nat) : Hash8 :=
  let padded := shaPad msg
  (toBlocksN padded.length padded).foldl shaCompress shaInit

/-- Big-endian byte serialization of one 32-bit word. -/
def wordBytes (w : Nat) : List Nat :=
  [w / 2 ^ 24 % 256, w / 2 ^ 16 % 256, w / 2 ^ 8 % 256, w % 256]

/-- SHA-256 digest of a byte list (32 bytes). -/
def sha256Bytes (msg : List Nat) : List Nat :=
  let s := sha256Words msg
  wordBytes s.h0 ++ wordBytes s.h1 ++ wordBytes s.h2 ++ wordBytes s.h3 ++
  wordBytes s.h4 ++ wordBytes s.h5 ++ wordBytes s.h6 ++ wordBytes s.h7

/-- UTF-8 encoding of a string (Python `str.encode()`), as byte values. -/
def utf8Bytes (s : String) : List Nat :=
  s.data.flatMap (fun c => (String.utf8EncodeChar c).map UInt8.toNat)

/-- Lowercase hex digit for a value `< 16`. -/
def hexChar (d : Nat) : Char := if d < 10 then Char.ofNat (48 + d) else Char.ofNat (87 + d)

/-- Two lowercase hex digits of one byte. -/
def byteHex (b : Nat) : List Char := [hexChar (b / 16), hexChar (b % 16)]

/-- Model of `hexdigest()` from `hashlib`: lowercase hex of the digest bytes. -/
def hexdigest (bytes : List Nat) : List Char := bytes.flatMap byteHex

/-- Overpass cache key (`views.py` line 47):
`f"overpass:{hashlib.sha256(query.encode()).hexdigest()[:16]}"`. -/
def overpass_cache_key (query : String) : String :=
  "overpass:" ++ String.mk ((hexdigest (sha256Bytes (utf8Bytes query))).take 16)

/-! ### Climate coordinate handling

The Climate handler parses `lat`/`lng` with Python `float()`, rounds with
`round(x, 2)` and builds the key `f"climate:{lat_r}:{lng_r}"`.
Coordinates are embedded as exact rationals: the binary doubles of Python and
their `round`/`str` agree with the exact-rational model on all inputs
that are not within double-epsilon of a two-decimal tie and whose
magnitude is small enough for `str` to use positional notation (all
geographic coordinates are). `float()` is embedded for decimal literals
(optional sign, digits, optional fraction); the `inf`/`nan`/exponent
forms it also accepts are outside the model. -/

/-- Value of a digit string (most significant first). -/
def digitsVal (cs : List Char) : Nat := cs.foldl (fun a c => 10 * a + (c.toNat - 48)) 0

/-- Python `float()` on an unsigned decimal literal: the exact rational
`intpart.fracpart` (built with `mkRat` to keep it kernel-executable). -/
def parseUnsigned (cs : List Char) : Option ℚ :=
  let intPart := cs.takeWhile Char.isDigit
  let rest := cs.dropWhile Char.isDigit
  match rest with
  | [] => if intPart.isEmpty then none else some (mkRat (digitsVal intPart) 1)
  | '.' :: frac =>
      if frac.all Char.isDigit && !(intPart.isEmpty && frac.isEmpty) then
        some (mkRat (digitsVal intPart * 10 ^ frac.length + digitsVal frac) (10 ^ frac.length))
      else none
  | _ => none

/-- Python `float()` on a signed decimal literal. -/
def parseFloat (s : String) : Option ℚ :=
  match s.data with
  | '+' :: rest => parseUnsigned rest
  | '-' :: rest => (parseUnsigned rest).map (fun q => mkRat (-q.num) q.den)
  | cs => parseUnsigned cs

/-- Python `round(x, 2)`, represented by the resulting number of
hundredths: `round(x, 2) = centiRound x / 100`.  Computed exactly on the
rational `q = num/den` as the half-even rounding of `100*num/den`:
`f = ⌊100*num/den⌋` with remainder `r`, comparing `r/den` to `1/2` via
`2*r ≟ den`. -/
def centiRound (q : ℚ) : ℤ :=
  let n := q.num * 100
  let d := (q.den : ℤ)
  let f := Int.fdiv n d
  let r := n - f * d
  if 2 * r < d then f
  else if d < 2 * r then f + 1
  else if f % 2 = 0 then f else f + 1

/-- Decimal digits of a natural number, most significant first
(auxiliary, little-endian, fuel-driven). -/
def natStrAux : Nat → Nat → List Char
  | 0, _ => []
  | fuel + 1, n => if n = 0 then [] else Char.ofNat (48 + n % 10) :: natStrAux fuel (n / 10)

/-- Python `str` of a natural number. -/
def natStr (n : Nat) : List Char := if n = 0 then ['0'] else (natStrAux n n).reverse

/-- Fractional part (in hundredths, `f < 100`) as Python `str` of the
rounded float prints it: `0 ↦ "0"`, `50 ↦ "5"`, `5 ↦ "05"`, `55 ↦ "55"`. -/
def fracStr (f : Nat) : List Char :=
  if f = 0 then ['0']
  else if f % 10 = 0 then natStr (f / 10)
  else if f < 10 then '0' :: natStr f
  else natStr f

/-- Python `str(k / 100)` for the two-decimal float `k / 100`
(`k = centiRound x` the number of hundredths), as a character list. -/
def renderCenti (k : ℤ) : List Char :=
  (if k < 0 then ['-'] else []) ++ natStr (k.natAbs / 100) ++ '.' :: fracStr (k.natAbs % 100)

/-- Climate cache key (`views.py` lines 115-118):
`f"climate:{round(lat_f, 2)}:{round(lng_f, 2)}"`. -/
def climate_cache_key (latF lngF : ℚ) : String :=
  ⟨"climate:".data ++ renderCenti (centiRound latF) ++ ':' :: renderCenti (centiRound lngF)⟩

/-- Canopy cache key (`views.py` line 187): `f"canopy:{quadkey}"`. -/
def canopy_cache_key (quadkey : String) : String := "canopy:" ++ quadkey

/-! ### The three proxy handlers -/

/-- Body served for a cache hit (`Response(cached)` /
`HttpResponse(cached, content_type="image/tiff")`). -/
def cacheBody : CacheVal → Body
  | .json j => .jsonB j
  | .bytes b => .bytesB b

/-- Upstream-fetch part of `OverpassProxyView.post` (`views.py` lines
53-83): called on a cache miss with the already-computed cache key. -/
def overpassFetch (cache_key : String) (up : UpOutcome Json) : HResp × Effects :=
  match up with
  | .timeout _ =>
      (⟨504, errBody "Overpass API timeout"⟩, ⟨[cache_key], 1, []⟩)
  | .response code body =>
      if is2xx code then
        (⟨200, .jsonB body⟩,
         ⟨[cache_key], 1, [(cache_key, .json body, CACHE_TTL_OVERPASS)]⟩)
      else
        (⟨502, errBody ("Overpass API error: " ++ toString code)⟩, ⟨[cache_key], 1, []⟩)
  | .otherError emsg =>
      (⟨500, errBody emsg⟩, ⟨[cache_key], 1, []⟩)

/-- Model of `OverpassProxyView.post` (`views.py` lines 39-83). `query` is
`request.data.get("query", "")`; `cget` is the cache view at request
time; `up` is the outcome the upstream POST would have. -/
def overpassPost (query : String) (cget : String → Option CacheVal)
    (up : UpOutcome Json) : HResp × Effects :=
  if query = "" then
    (⟨400, errBody "Missing \x27query\x27 parameter"⟩, noEffects)
  else
    match cget (overpass_cache_key query) with
    | some v =>
        if cacheValTruthy v then
          (⟨200, cacheBody v⟩, ⟨[overpass_cache_key query], 0, []⟩)
        else overpassFetch (overpass_cache_key query) up
    | none => overpassFetch (overpass_cache_key query) up

/-- Upstream-fetch part of `ClimateProxyView.get` (`views.py` lines
125-158). -/
def climateFetch (cache_key : String) (up : UpOutcome Json) : HResp × Effects :=
  match up with
  | .timeout _ =>
      (⟨504, errBody "Climate API timeout"⟩, ⟨[cache_key], 1, []⟩)
  | .response code body =>
      if is2xx code then
        (⟨200, .jsonB body⟩,
         ⟨[cache_key], 1, [(cache_key, .json body, CACHE_TTL_CLIMATE)]⟩)
      else
        (⟨502, errBody ("Climate API error: " ++ toString code)⟩, ⟨[cache_key], 1, []⟩)
  | .otherError emsg =>
      (⟨500, errBody emsg⟩, ⟨[cache_key], 1, []⟩)

/-- Model of `ClimateProxyView.get` (`views.py` lines 97-158). `latParam` and
`lngParam` are `request.query_params.get("lat"/"lng")`. -/
def climateGet (latParam lngParam : Option String) (cget : String → Option CacheVal)
    (up : UpOutcome Json) : HResp × Effects :=
  match latParam, lngParam with
  | some lat, some lng =>
      if lat = "" || lng = "" then
        (⟨400, errBody "Missing \x27lat\x27 and \x27lng\x27 parameters"⟩, noEffects)
      else
        match parseFloat lat, parseFloat lng with
        | some latF, some lngF =>
            match cget (climate_cache_key latF lngF) with
            | some v =>
                if cacheValTruthy v then
                  (⟨200, cacheBody v⟩, ⟨[climate_cache_key latF lngF], 0, []⟩)
                else climateFetch (climate_cache_key latF lngF) up
            | none => climateFetch (climate_cache_key latF lngF) up
        | _, _ => (⟨400, errBody "Invalid lat/lng values"⟩, noEffects)
  | _, _ => (⟨400, errBody "Missing \x27lat\x27 and \x27lng\x27 parameters"⟩, noEffects)

/-- Quadkey validation (`views.py` line 174):
`quadkey and all(c in "0123" for c in quadkey)`. -/
def validQuadkey (quadkey : String) : Bool :=
  decide (quadkey ≠ "") && quadkey.data.all (fun c => c = '0' || c = '1' || c = '2' || c = '3')

/-- Upstream-fetch part of `CanopyTileView.get` (`views.py` lines
194-223).  `httpx.TimeoutException` is not an `HTTPStatusError`, and
this view has no timeout clause, so a timeout falls through to the
generic `except Exception` branch and yields 500 with `str(e)`. -/
def canopyFetch (cache_key : String) (up : UpOutcome (List Nat)) : HResp × Effects :=
  match up with
  | .timeout emsg =>
      (⟨500, errBody emsg⟩, ⟨[cache_key], 1, []⟩)
  | .response code tile_bytes =>
      if is2xx code then
        (⟨200, .bytesB tile_bytes⟩,
         ⟨[cache_key], 1,
          if tile_bytes.length < 25 * 1024 * 1024 then
            [(cache_key, .bytes tile_bytes, CACHE_TTL_CANOPY)]
          else []⟩)
      else if code = 404 then
        (⟨404, errBody "Tile not found"⟩, ⟨[cache_key], 1, []⟩)
      else
        (⟨502, errBody ("Tile fetch error: " ++ toString code)⟩, ⟨[cache_key], 1, []⟩)
  | .otherError emsg =>
      (⟨500, errBody emsg⟩, ⟨[cache_key], 1, []⟩)

/-- Model of `CanopyTileView.get` (`views.py` lines 172-223). `localFile` models
the deterministic local tile path
`os.path.join(BASE_DIR, "data", "canopy", f"{quadkey}.tif")`: it returns
the bytes of the file when `os.path.exists` holds, keyed by the quadkey the
path is derived from. -/
def canopyGet (quadkey : String) (localFile : String → Option (List Nat))
    (cget : String → Option CacheVal) (up : UpOutcome (List Nat)) : HResp × Effects :=
  if !validQuadkey quadkey then
    (⟨400, errBody "Invalid quadkey format"⟩, noEffects)
  else
    match localFile quadkey with
    | some content => (⟨200, .fileB content⟩, noEffects)
    | none =>
        match cget (canopy_cache_key quadkey) with
        | some v =>
            if cacheValTruthy v then
              (⟨200, cacheBody v⟩, ⟨[canopy_cache_key quadkey], 0, []⟩)
            else canopyFetch (canopy_cache_key quadkey) up
        | none => canopyFetch (canopy_cache_key quadkey) up

/-! ### Helper lemmas on the handlers -/

/-- On a non-empty query whose cache entry is absent or falsy, the
Overpass handler proceeds to the upstream fetch. -/
theorem overpassPost_miss (q : String) (cg : String → Option CacheVal) (up : UpOutcome Json)
    (hq : q ≠ "") (hmiss : optTruthy (cg (overpass_cache_key q)) = false) :
    overpassPost q cg up = overpassFetch (overpass_cache_key q) up := by
  unfold overpassPost
  rw [if_neg hq]
  cases hc : cg (overpass_cache_key q) with
  | none => rfl
  | some v =>
      rw [hc] at hmiss
      simp only [optTruthy] at hmiss
      simp [hmiss]

/-- On a non-empty query whose cache entry is present and truthy, the
Overpass handler serves the cached value with no upstream call. -/
theorem overpassPost_hit (q : String) (cg : String → Option CacheVal) (up : UpOutcome Json)
    (v : CacheVal) (hq : q ≠ "") (hv : cg (overpass_cache_key q) = some v)
    (ht : cacheValTruthy v = true) :
    overpassPost q cg up = (⟨200, cacheBody v⟩, ⟨[overpass_cache_key q], 0, []⟩) := by
  unfold overpassPost
  rw [if_neg hq, hv]
  simp [ht]

/-- On valid parameters whose cache entry is absent or falsy, the
Climate handler proceeds to the upstream fetch. -/
theorem climateGet_miss (lat lng : String) (latF lngF : ℚ)
    (cg : String → Option CacheVal) (up : UpOutcome Json)
    (hlat : lat ≠ "") (hlng : lng ≠ "")
    (hpl : parseFloat lat = some latF) (hpg : parseFloat lng = some lngF)
    (hmiss : optTruthy (cg (climate_cache_key latF lngF)) = false) :
    climateGet (some lat) (some lng) cg up = climateFetch (climate_cache_key latF lngF) up := by
  unfold climateGet
  dsimp only
  rw [if_neg (by simp [hlat, hlng]), hpl, hpg]
  dsimp only
  cases hc : cg (climate_cache_key latF lngF) with
  | none => rfl
  | some v =>
      rw [hc] at hmiss
      simp only [optTruthy] at hmiss
      simp [hmiss]

/-- On a valid quadkey with no local file and an absent-or-falsy cache
entry, the Canopy handler proceeds to the upstream fetch. -/
theorem canopyGet_miss (qk : String) (lf : String → Option (List Nat))
    (cg : String → Option CacheVal) (up : UpOutcome (List Nat))
    (hqk : validQuadkey qk = true) (hfile : lf qk = none)
    (hmiss : optTruthy (cg (canopy_cache_key qk)) = false) :
    canopyGet qk lf cg up = canopyFetch (canopy_cache_key qk) up := by
  unfold canopyGet
  rw [hqk, hfile]
  cases hc : cg (canopy_cache_key qk) with
  | none => rfl
  | some v =>
      rw [hc] at hmiss
      simp only [optTruthy] at hmiss
      simp [hmiss]

/-- Every upstream-fetch path of the Overpass handler makes exactly one
upstream call. -/
theorem overpassFetch_calls (k : String) (up : UpOutcome Json) :
    (overpassFetch k up).2.upstreamCalls = 1 := by
  cases up with
  | timeout m => rfl
  | response code body => by_cases h : is2xx code <;> simp [overpassFetch, h]
  | otherError m => rfl

/-- Every upstream-fetch path of the Climate handler makes exactly one
upstream call. -/
theorem climateFetch_calls (k : String) (up : UpOutcome Json) :
    (climateFetch k up).2.upstreamCalls = 1 := by
  cases up with
  | timeout m => rfl
  | response code body => by_cases h : is2xx code <;> simp [climateFetch, h]
  | otherError m => rfl

/-- Every upstream-fetch path of the Canopy handler makes exactly one
upstream call. -/
theorem canopyFetch_calls (k : String) (up : UpOutcome (List Nat)) :
    (canopyFetch k up).2.upstreamCalls = 1 := by
  cases up with
  | timeout m => rfl
  | response code body =>
      simp only [canopyFetch]
      split
      · rfl
      · split <;> rfl
  | otherError m => rfl

/-! ### C1 — Climate cache key and 2-decimal rounding -/

/-- Claim C1 counterexample: the example pair given by the spec itself does *not* derive
the same key: `lat=37.774` rounds to `37.77` but `lat=37.7751` rounds to
`37.78` (Python `round` rounds to the nearest hundredth; `37.7751` is
nearer `37.78`), so the two requests derive different cache keys. -/
theorem climate_key_beyond_2dp_cex :
    climate_cache_key (mkRat 37774 1000) 0 = "climate:37.77:0.0" ∧
    climate_cache_key (mkRat 377751 10000) 0 = "climate:37.78:0.0" ∧
    climate_cache_key (mkRat 37774 1000) 0 ≠ climate_cache_key (mkRat 377751 10000) 0 := by
  refine ⟨?_, ?_, ?_⟩ <;> decide

/-- Claim C1 amended: two Climate requests derive the same cache key
whenever their latitudes round to the same hundredth and their
longitudes round to the same hundredth (rounding to nearest, not digit
truncation); `lat=37.774` derives key component `37.77`, and so does any
latitude rounding to `37.77`, e.g. `37.7749` — but not `37.7751`. -/
theorem climate_key_round_invariant (lat1 lng1 lat2 lng2 : ℚ)
    (hlat : centiRound lat1 = centiRound lat2) (hlng : centiRound lng1 = centiRound lng2) :
    climate_cache_key lat1 lng1 = climate_cache_key lat2 lng2 := by
  unfold climate_cache_key
  rw [hlat, hlng]

/-- Witness for `climate_key_round_invariant`: `37.774` and `37.7749`
round to the same hundredth and derive the same key. -/
theorem climate_key_round_invariant_witness :
    centiRound (mkRat 37774 1000) = centiRound (mkRat 377749 10000) ∧
    climate_cache_key (mkRat 37774 1000) 0 = climate_cache_key (mkRat 377749 10000) 0 :=
  ⟨by decide, climate_key_round_invariant _ _ _ _ (by decide) (by decide)⟩

/-! ### C2 — Repeating an Overpass query within the TTL window -/

/-- Claim C2 counterexample: a first request for a valid query succeeds
upstream with the empty JSON object and stores it, yet repeating the
identical query with that entry present and unexpired makes another
upstream call, because `if cached:` treats the falsy `{}` as a miss. -/
theorem overpass_repeat_falsy_cex :
    (overpassPost "[out:json];" (fun _ => none) (.response 200 (.obj []))).2.writes
      = [(overpass_cache_key "[out:json];", .json (.obj []), CACHE_TTL_OVERPASS)] ∧
    (overpassPost "[out:json];" (fun _ => some (.json (.obj [])))
        (.response 200 (.obj []))).2.upstreamCalls = 1 :=
  ⟨rfl, rfl⟩

/-- Claim C2 amended: for every valid non-empty Overpass query whose
first request succeeded upstream (storing the parsed JSON under the
derived key), if the stored JSON is truthy (e.g. a non-empty object),
then repeating the identical query while the entry is present and
unexpired makes zero upstream calls, performs no cache write, and
returns the stored JSON unmodified. -/
theorem overpass_repeat_within_ttl
    (q : String) (j : Json) (c0 c1 : String → Option CacheVal) (up1 : UpOutcome Json)
    (hq : q ≠ "")
    (h0 : optTruthy (c0 (overpass_cache_key q)) = false)
    (hstore : c1 (overpass_cache_key q) = some (.json j))
    (htruthy : jsonTruthy j = true) :
    overpassPost q c0 (.response 200 j)
      = (⟨200, .jsonB j⟩, ⟨[overpass_cache_key q], 1,
          [(overpass_cache_key q, .json j, CACHE_TTL_OVERPASS)]⟩) ∧
    overpassPost q c1 up1 = (⟨200, .jsonB j⟩, ⟨[overpass_cache_key q], 0, []⟩) := by
  constructor
  · rw [overpassPost_miss q c0 _ hq h0]
    rfl
  · rw [overpassPost_hit q c1 up1 (.json j) hq hstore htruthy]
    rfl

/-- Witness for `overpass_repeat_within_ttl` at a concrete query and a
truthy stored body. -/
theorem overpass_repeat_within_ttl_witness :
    overpassPost "[out:json];way;" (fun _ => none)
        (.response 200 (.obj [("elements", .arr [.num 1])]))
      = (⟨200, .jsonB (.obj [("elements", .arr [.num 1])])⟩,
         ⟨[overpass_cache_key "[out:json];way;"], 1,
          [(overpass_cache_key "[out:json];way;",
            .json (.obj [("elements", .arr [.num 1])]), CACHE_TTL_OVERPASS)]⟩) ∧
    overpassPost "[out:json];way;"
        (fun _ => some (.json (.obj [("elements", .arr [.num 1])]))) (.timeout "t")
      = (⟨200, .jsonB (.obj [("elements", .arr [.num 1])])⟩,
         ⟨[overpass_cache_key "[out:json];way;"], 0, []⟩) :=
  overpass_repeat_within_ttl "[out:json];way;" (.obj [("elements", .arr [.num 1])])
    (fun _ => none) (fun _ => some (.json (.obj [("elements", .arr [.num 1])])))
    (.timeout "t") (by decide) rfl rfl rfl

/-! ### C3 — Upstream timeout statuses -/

/-- Claim C3 counterexample: a Canopy request (valid quadkey `"0"`, no
local file, cache miss) whose upstream call times out returns 500, not
504: `httpx.TimeoutException` is caught by the generic `except
Exception` clause, since `CanopyTileView.get` has no timeout clause. -/
theorem canopy_timeout_not_504_cex :
    (canopyGet "0" (fun _ => none) (fun _ => none) (.timeout "timed out")).1.status = 500 ∧
    (canopyGet "0" (fun _ => none) (fun _ => none) (.timeout "timed out")).1.status ≠ 504 :=
  ⟨rfl, by decide⟩

/-- Claim C3 amended: on upstream timeout the Overpass and Climate
handlers return HTTP 504 with the structured error bodies
`{"error": "Overpass API timeout"}` / `{"error": "Climate API
timeout"}`; the Canopy handler has no timeout clause and returns HTTP
500 with the structured body `{"error": str(e)}`. -/
theorem upstream_timeout_statuses
    (q lat lng qk m : String) (latF lngF : ℚ)
    (cgO cgC cgK : String → Option CacheVal) (lf : String → Option (List Nat))
    (hq : q ≠ "") (hO : optTruthy (cgO (overpass_cache_key q)) = false)
    (hlat : lat ≠ "") (hlng : lng ≠ "")
    (hpl : parseFloat lat = some latF) (hpg : parseFloat lng = some lngF)
    (hC : optTruthy (cgC (climate_cache_key latF lngF)) = false)
    (hqk : validQuadkey qk = true) (hfile : lf qk = none)
    (hK : optTruthy (cgK (canopy_cache_key qk)) = false) :
    overpassPost q cgO (.timeout m)
      = (⟨504, errBody "Overpass API timeout"⟩, ⟨[overpass_cache_key q], 1, []⟩) ∧
    climateGet (some lat) (some lng) cgC (.timeout m)
      = (⟨504, errBody "Climate API timeout"⟩, ⟨[climate_cache_key latF lngF], 1, []⟩) ∧
    canopyGet qk lf cgK (.timeout m)
      = (⟨500, errBody m⟩, ⟨[canopy_cache_key qk], 1, []⟩) := by
  refine ⟨?_, ?_, ?_⟩
  · rw [overpassPost_miss q cgO _ hq hO]; rfl
  · rw [climateGet_miss lat lng latF lngF cgC _ hlat hlng hpl hpg hC]; rfl
  · rw [canopyGet_miss qk lf cgK _ hqk hfile hK]; rfl

/-- Witness for `upstream_timeout_statuses` at concrete requests. -/
theorem upstream_timeout_statuses_witness :
    overpassPost "q1" (fun _ => none) (.timeout "m")
      = (⟨504, errBody "Overpass API timeout"⟩, ⟨[overpass_cache_key "q1"], 1, []⟩) ∧
    climateGet (some "37.774") (some "0") (fun _ => none) (.timeout "m")
      = (⟨504, errBody "Climate API timeout"⟩,
         ⟨[climate_cache_key (mkRat 18887 500) (mkRat 0 1)], 1, []⟩) ∧
    canopyGet "01" (fun _ => none) (fun _ => none) (.timeout "m")
      = (⟨500, errBody "m"⟩, ⟨[canopy_cache_key "01"], 1, []⟩) :=
  upstream_timeout_statuses "q1" "37.774" "0" "01" "m" (mkRat 18887 500) (mkRat 0 1)
    (fun _ => none) (fun _ => none) (fun _ => none) (fun _ => none)
    (by decide) rfl (by decide) (by decide) (by decide) (by decide) rfl (by decide) rfl rfl

/-! ### C4 — Local tile file bypasses cache and upstream -/

/-- Claim C4: for every valid canopy quadkey with a local tile file, the
handler streams that file and performs no cache lookup, no cache write,
and no upstream call. -/
theorem canopy_local_file_bypasses_all
    (qk : String) (content : List Nat) (lf : String → Option (List Nat))
    (cg : String → Option CacheVal) (up : UpOutcome (List Nat))
    (hqk : validQuadkey qk = true) (hfile : lf qk = some content) :
    canopyGet qk lf cg up = (⟨200, .fileB content⟩, noEffects) ∧
    (canopyGet qk lf cg up).2.lookups = [] ∧
    (canopyGet qk lf cg up).2.upstreamCalls = 0 ∧
    (canopyGet qk lf cg up).2.writes = [] := by
  have h : canopyGet qk lf cg up = (⟨200, .fileB content⟩, noEffects) := by
    simp [canopyGet, hqk, hfile]
  exact ⟨h, by rw [h]; rfl, by rw [h]; rfl, by rw [h]; rfl⟩

/-- Witness for `canopy_local_file_bypasses_all`: quadkey `"01"` with a
present local file. -/
theorem canopy_local_file_bypasses_all_witness :
    canopyGet "01" (fun _ => some [7, 7]) (fun _ => some (.bytes [9])) (.timeout "t")
      = (⟨200, .fileB [7, 7]⟩, noEffects) :=
  (canopy_local_file_bypasses_all "01" [7, 7] (fun _ => some [7, 7])
    (fun _ => some (.bytes [9])) (.timeout "t") (by decide) rfl).1

/-! ### C5 — 25 MiB canopy cache-store threshold -/

/-- Claim C5: on a successful canopy upstream fetch the payload is always
returned with status 200, and it is stored (with the canopy TTL) exactly
when its size is below 25 MiB = `25 * 1024 * 1024` bytes.  For an
oversized payload the write list is empty, so the cache is unchanged and
a subsequent identical request (same `cg`, still satisfying `hmiss`)
again satisfies the conclusions of this theorem — in particular it makes one
upstream call again. -/
theorem canopy_size_threshold_caching
    (qk : String) (tile : List Nat) (code : Nat)
    (lf : String → Option (List Nat)) (cg : String → Option CacheVal)
    (hqk : validQuadkey qk = true) (hfile : lf qk = none)
    (hmiss : optTruthy (cg (canopy_cache_key qk)) = false)
    (h2xx : is2xx code = true) :
    (canopyGet qk lf cg (.response code tile)).1 = ⟨200, .bytesB tile⟩ ∧
    (canopyGet qk lf cg (.response code tile)).2.writes
      = (if tile.length < 25 * 1024 * 1024 then
           [(canopy_cache_key qk, .bytes tile, CACHE_TTL_CANOPY)]
         else []) ∧
    (canopyGet qk lf cg (.response code tile)).2.upstreamCalls = 1 := by
  rw [canopyGet_miss qk lf cg _ hqk hfile hmiss]
  refine ⟨?_, ?_, ?_⟩ <;> simp [canopyFetch, h2xx]

/-- Witness for `canopy_size_threshold_caching`: a small (3-byte) tile
is stored with the canopy TTL. -/
theorem canopy_size_threshold_caching_witness :
    (canopyGet "2" (fun _ => none) (fun _ => none) (.response 200 [1, 2, 3])).2.writes
      = (if ([1, 2, 3] : List Nat).length < 25 * 1024 * 1024 then
           [(canopy_cache_key "2", .bytes [1, 2, 3], CACHE_TTL_CANOPY)]
         else []) :=
  (canopy_size_threshold_caching "2" [1, 2, 3] 200 (fun _ => none) (fun _ => none)
    (by decide) rfl rfl (by decide)).2.1

/-! ### C6 — Canopy upstream error mapping -/

/-- Claim C6: for a canopy request reaching the upstream tier, upstream
404 maps to HTTP 404 `{"error": "Tile not found"}`, any other non-2xx
status maps to HTTP 502 carrying the status, and any other fault —
including a timeout, which this view does not handle specially — maps to
HTTP 500 with `{"error": str(e)}`. -/
theorem canopy_upstream_error_mapping
    (qk m : String) (code : Nat) (tile : List Nat)
    (lf : String → Option (List Nat)) (cg : String → Option CacheVal)
    (hqk : validQuadkey qk = true) (hfile : lf qk = none)
    (hmiss : optTruthy (cg (canopy_cache_key qk)) = false)
    (hn2xx : is2xx code = false) :
    (code = 404 →
       canopyGet qk lf cg (.response code tile)
         = (⟨404, errBody "Tile not found"⟩, ⟨[canopy_cache_key qk], 1, []⟩)) ∧
    (code ≠ 404 →
       canopyGet qk lf cg (.response code tile)
         = (⟨502, errBody ("Tile fetch error: " ++ toString code)⟩,
            ⟨[canopy_cache_key qk], 1, []⟩)) ∧
    canopyGet qk lf cg (.timeout m) = (⟨500, errBody m⟩, ⟨[canopy_cache_key qk], 1, []⟩) ∧
    canopyGet qk lf cg (.otherError m)
      = (⟨500, errBody m⟩, ⟨[canopy_cache_key qk], 1, []⟩) := by
  rw [canopyGet_miss qk lf cg (.response code tile) hqk hfile hmiss,
      canopyGet_miss qk lf cg (.timeout m) hqk hfile hmiss,
      canopyGet_miss qk lf cg (.otherError m) hqk hfile hmiss]
  refine ⟨fun h4 => ?_, fun h4 => ?_, rfl, rfl⟩
  · subst h4
    simp [canopyFetch, hn2xx]
  · simp [canopyFetch, hn2xx, h4]

/-- Witness for `canopy_upstream_error_mapping`: upstream 404 yields
HTTP 404. -/
theorem canopy_upstream_error_mapping_witness :
    canopyGet "3" (fun _ => none) (fun _ => none) (.response 404 [])
      = (⟨404, errBody "Tile not found"⟩, ⟨[canopy_cache_key "3"], 1, []⟩) :=
  (canopy_upstream_error_mapping "3" "m" 404 [] (fun _ => none) (fun _ => none)
    (by decide) rfl rfl (by decide)).1 rfl

/-! ### C7 — Canopy quadkey validation -/

/-- The upstream-fetch part of the Canopy handler never returns 400. -/
theorem canopyFetch_status_ne_400 (k : String) (up : UpOutcome (List Nat)) :
    (canopyFetch k up).1.status ≠ 400 := by
  cases up with
  | timeout m => simp [canopyFetch]
  | response code tile =>
      simp only [canopyFetch]
      split
      · simp
      · split <;> simp
  | otherError m => simp [canopyFetch]

/-- Claim C7: a canopy quadkey is accepted exactly when it is non-empty
and all its characters are among `0123`; a rejected quadkey yields HTTP
400 `{"error": "Invalid quadkey format"}` with no cache lookup, no cache
write and no upstream call, while an accepted quadkey never yields 400. -/
theorem canopy_quadkey_validation (qk : String) (lf : String → Option (List Nat))
    (cg : String → Option CacheVal) (up : UpOutcome (List Nat)) :
    (validQuadkey qk = true ↔
       qk ≠ "" ∧ ∀ c ∈ qk.data, c = '0' ∨ c = '1' ∨ c = '2' ∨ c = '3') ∧
    (validQuadkey qk = false →
       canopyGet qk lf cg up = (⟨400, errBody "Invalid quadkey format"⟩, noEffects)) ∧
    (validQuadkey qk = true → (canopyGet qk lf cg up).1.status ≠ 400) := by
  refine ⟨?_, fun hv => ?_, fun hv => ?_⟩
  · simp only [validQuadkey, Bool.and_eq_true, decide_eq_true_eq, List.all_eq_true,
      Bool.or_eq_true]
    constructor
    · rintro ⟨h1, h2⟩
      refine ⟨h1, fun c hc => ?_⟩
      rcases h2 c hc with ((h | h) | h) | h <;> tauto
    · rintro ⟨h1, h2⟩
      refine ⟨h1, fun c hc => ?_⟩
      rcases h2 c hc with h | h | h | h <;> tauto
  · simp [canopyGet, hv]
  · simp only [canopyGet, hv, Bool.not_true]
    simp only [Bool.false_eq_true, if_false]
    cases hf : lf qk with
    | some c => simp
    | none =>
        cases hc : cg (canopy_cache_key qk) with
        | none => exact canopyFetch_status_ne_400 _ _
        | some v =>
            dsimp only
            split
            · simp
            · exact canopyFetch_status_ne_400 _ _

/-- Witness for `canopy_quadkey_validation`: `"012a"` is rejected with
400 before any tier; `"0123"` is accepted (does not yield 400). -/
theorem canopy_quadkey_validation_witness :
    canopyGet "012a" (fun _ => none) (fun _ => none) (.timeout "t")
      = (⟨400, errBody "Invalid quadkey format"⟩, noEffects) ∧
    (canopyGet "0123" (fun _ => none) (fun _ => none) (.timeout "t")).1.status ≠ 400 :=
  ⟨(canopy_quadkey_validation "012a" (fun _ => none) (fun _ => none) (.timeout "t")).2.1
      (by decide),
   (canopy_quadkey_validation "0123" (fun _ => none) (fun _ => none) (.timeout "t")).2.2
      (by decide)⟩

/-! ### C9 — Falsy cache entries are treated as misses -/

/-- Claim C9: in all three handlers, a present cache entry whose stored
value is falsy (empty JSON object/array, empty string/bytes, zero, …) is
treated as a cache miss: the handler proceeds to the upstream tier and
makes one upstream call even though a value is present under the key. -/
theorem falsy_entry_treated_as_miss
    (q lat lng qk : String) (latF lngF : ℚ) (vO vC vK : CacheVal)
    (cgO cgC cgK : String → Option CacheVal) (lf : String → Option (List Nat))
    (upO upC : UpOutcome Json) (upK : UpOutcome (List Nat))
    (hq : q ≠ "")
    (hvO : cgO (overpass_cache_key q) = some vO) (htO : cacheValTruthy vO = false)
    (hlat : lat ≠ "") (hlng : lng ≠ "")
    (hpl : parseFloat lat = some latF) (hpg : parseFloat lng = some lngF)
    (hvC : cgC (climate_cache_key latF lngF) = some vC) (htC : cacheValTruthy vC = false)
    (hqk : validQuadkey qk = true) (hfile : lf qk = none)
    (hvK : cgK (canopy_cache_key qk) = some vK) (htK : cacheValTruthy vK = false) :
    (overpassPost q cgO upO).2.upstreamCalls = 1 ∧
    (climateGet (some lat) (some lng) cgC upC).2.upstreamCalls = 1 ∧
    (canopyGet qk lf cgK upK).2.upstreamCalls = 1 := by
  refine ⟨?_, ?_, ?_⟩
  · rw [overpassPost_miss q cgO upO hq (by rw [hvO]; exact htO)]
    exact overpassFetch_calls _ _
  · rw [climateGet_miss lat lng latF lngF cgC upC hlat hlng hpl hpg (by rw [hvC]; exact htC)]
    exact climateFetch_calls _ _
  · rw [canopyGet_miss qk lf cgK upK hqk hfile (by rw [hvK]; exact htK)]
    exact canopyFetch_calls _ _

/-- Witness for `falsy_entry_treated_as_miss`: empty JSON objects and
empty byte strings stored under the derived keys still cause one
upstream call each. -/
theorem falsy_entry_treated_as_miss_witness :
    (overpassPost "q2" (fun _ => some (.json (.obj []))) (.timeout "t")).2.upstreamCalls = 1 ∧
    (climateGet (some "1") (some "2") (fun _ => some (.json (.arr [])))
        (.timeout "t")).2.upstreamCalls = 1 ∧
    (canopyGet "00" (fun _ => none) (fun _ => some (.bytes []))
        (.timeout "t")).2.upstreamCalls = 1 :=
  falsy_entry_treated_as_miss "q2" "1" "2" "00" (mkRat 1 1) (mkRat 2 1)
    (.json (.obj [])) (.json (.arr [])) (.bytes [])
    (fun _ => some (.json (.obj []))) (fun _ => some (.json (.arr [])))
    (fun _ => some (.bytes [])) (fun _ => none)
    (.timeout "t") (.timeout "t") (.timeout "t")
    (by decide) rfl rfl (by decide) (by decide) (by decide) (by decide) rfl rfl
    (by decide) rfl rfl rfl

/-! ### C10 — Error responses leave the cache unchanged -/

/-- The write-discipline of one handler result: an error status writes
nothing, and a write only happens on a freshly fetched 200 response. -/
def cacheWriteSpec (r : HResp × Effects) : Prop :=
  (r.1.status ≠ 200 → r.2.writes = []) ∧
  (r.2.writes ≠ [] → r.1.status = 200 ∧ r.2.upstreamCalls = 1)

/-- The Overpass fetch path obeys the write discipline. -/
theorem overpassFetch_writeSpec (k : String) (up : UpOutcome Json) :
    cacheWriteSpec (overpassFetch k up) := by
  cases up with
  | timeout m => exact ⟨fun _ => rfl, fun h => absurd rfl h⟩
  | otherError m => exact ⟨fun _ => rfl, fun h => absurd rfl h⟩
  | response code body =>
      simp only [overpassFetch]
      split
      · exact ⟨fun h => absurd rfl h, fun _ => ⟨rfl, rfl⟩⟩
      · exact ⟨fun _ => rfl, fun h => absurd rfl h⟩

/-- The Climate fetch path obeys the write discipline. -/
theorem climateFetch_writeSpec (k : String) (up : UpOutcome Json) :
    cacheWriteSpec (climateFetch k up) := by
  cases up with
  | timeout m => exact ⟨fun _ => rfl, fun h => absurd rfl h⟩
  | otherError m => exact ⟨fun _ => rfl, fun h => absurd rfl h⟩
  | response code body =>
      simp only [climateFetch]
      split
      · exact ⟨fun h => absurd rfl h, fun _ => ⟨rfl, rfl⟩⟩
      · exact ⟨fun _ => rfl, fun h => absurd rfl h⟩

/-- The Canopy fetch path obeys the write discipline. -/
theorem canopyFetch_writeSpec (k : String) (up : UpOutcome (List Nat)) :
    cacheWriteSpec (canopyFetch k up) := by
  cases up with
  | timeout m => exact ⟨fun _ => rfl, fun h => absurd rfl h⟩
  | otherError m => exact ⟨fun _ => rfl, fun h => absurd rfl h⟩
  | response code tile =>
      simp only [canopyFetch]
      split
      · exact ⟨fun h => absurd rfl h, fun _ => ⟨rfl, rfl⟩⟩
      · split
        · exact ⟨fun _ => rfl, fun h => absurd rfl h⟩
        · exact ⟨fun _ => rfl, fun h => absurd rfl h⟩

/-- The whole Overpass handler obeys the write discipline. -/
theorem overpassPost_writeSpec (q : String) (cg : String → Option CacheVal)
    (up : UpOutcome Json) : cacheWriteSpec (overpassPost q cg up) := by
  unfold overpassPost
  split
  · exact ⟨fun _ => rfl, fun h => absurd rfl h⟩
  · cases hc : cg (overpass_cache_key q) with
    | none => exact overpassFetch_writeSpec _ _
    | some v =>
        dsimp only
        split
        · exact ⟨fun h => absurd rfl h, fun h => absurd rfl h⟩
        · exact overpassFetch_writeSpec _ _

/-- The whole Climate handler obeys the write discipline. -/
theorem climateGet_writeSpec (latP lngP : Option String) (cg : String → Option CacheVal)
    (up : UpOutcome Json) : cacheWriteSpec (climateGet latP lngP cg up) := by
  cases latP with
  | none => exact ⟨fun _ => rfl, fun h => absurd rfl h⟩
  | some lat =>
      cases lngP with
      | none => exact ⟨fun _ => rfl, fun h => absurd rfl h⟩
      | some lng =>
          unfold climateGet
          dsimp only
          split
          · exact ⟨fun _ => rfl, fun h => absurd rfl h⟩
          · cases hpl : parseFloat lat with
            | none => exact ⟨fun _ => rfl, fun h => absurd rfl h⟩
            | some latF =>
                cases hpg : parseFloat lng with
                | none => exact ⟨fun _ => rfl, fun h => absurd rfl h⟩
                | some lngF =>
                    dsimp only
                    cases hc : cg (climate_cache_key latF lngF) with
                    | none => exact climateFetch_writeSpec _ _
                    | some v =>
                        dsimp only
                        split
                        · exact ⟨fun h => absurd rfl h, fun h => absurd rfl h⟩
                        · exact climateFetch_writeSpec _ _

/-- The whole Canopy handler obeys the write discipline. -/
theorem canopyGet_writeSpec (qk : String) (lf : String → Option (List Nat))
    (cg : String → Option CacheVal) (up : UpOutcome (List Nat)) :
    cacheWriteSpec (canopyGet qk lf cg up) := by
  unfold canopyGet
  split
  · exact ⟨fun _ => rfl, fun h => absurd rfl h⟩
  · cases hf : lf qk with
    | some c => exact ⟨fun h => absurd rfl h, fun h => absurd rfl h⟩
    | none =>
        cases hc : cg (canopy_cache_key qk) with
        | none => exact canopyFetch_writeSpec _ _
        | some v =>
            dsimp only
            split
            · exact ⟨fun h => absurd rfl h, fun h => absurd rfl h⟩
            · exact canopyFetch_writeSpec _ _

/-- Claim C10: in all three handlers every error response (400, 404, 500,
502, 504 — any non-200 status) leaves the cache store unchanged (empty
write list), and a cache write happens only on a response with status
200 produced by a fresh upstream fetch (exactly one upstream call). -/
theorem error_responses_no_cache_write
    (q : String) (latP lngP : Option String) (qk : String)
    (cgO cgC cgK : String → Option CacheVal) (lf : String → Option (List Nat))
    (upO upC : UpOutcome Json) (upK : UpOutcome (List Nat)) :
    ((overpassPost q cgO upO).1.status ≠ 200 → (overpassPost q cgO upO).2.writes = []) ∧
    ((overpassPost q cgO upO).2.writes ≠ [] →
       (overpassPost q cgO upO).1.status = 200 ∧ (overpassPost q cgO upO).2.upstreamCalls = 1) ∧
    ((climateGet latP lngP cgC upC).1.status ≠ 200 →
       (climateGet latP lngP cgC upC).2.writes = []) ∧
    ((climateGet latP lngP cgC upC).2.writes ≠ [] →
       (climateGet latP lngP cgC upC).1.status = 200 ∧
       (climateGet latP lngP cgC upC).2.upstreamCalls = 1) ∧
    ((canopyGet qk lf cgK upK).1.status ≠ 200 → (canopyGet qk lf cgK upK).2.writes = []) ∧
    ((canopyGet qk lf cgK upK).2.writes ≠ [] →
       (canopyGet qk lf cgK upK).1.status = 200 ∧ (canopyGet qk lf cgK upK).2.upstreamCalls = 1) :=
  ⟨(overpassPost_writeSpec q cgO upO).1, (overpassPost_writeSpec q cgO upO).2,
   (climateGet_writeSpec latP lngP cgC upC).1, (climateGet_writeSpec latP lngP cgC upC).2,
   (canopyGet_writeSpec qk lf cgK upK).1, (canopyGet_writeSpec qk lf cgK upK).2⟩

/-- Witness for `error_responses_no_cache_write` at concrete erroring
requests (missing query, missing params, invalid quadkey). -/
theorem error_responses_no_cache_write_witness :
    (overpassPost "" (fun _ => none) (.timeout "t")).2.writes = [] ∧
    (climateGet none none (fun _ => none) (.timeout "t")).2.writes = [] ∧
    (canopyGet "4" (fun _ => none) (fun _ => none) (.timeout "t")).2.writes = [] :=
  ⟨(error_responses_no_cache_write "" none none "4" (fun _ => none) (fun _ => none)
      (fun _ => none) (fun _ => none) (.timeout "t") (.timeout "t") (.timeout "t")).1
      (by decide),
   (error_responses_no_cache_write "" none none "4" (fun _ => none) (fun _ => none)
      (fun _ => none) (fun _ => none) (.timeout "t") (.timeout "t") (.timeout "t")).2.2.1
      (by decide),
   (error_responses_no_cache_write "" none none "4" (fun _ => none) (fun _ => none)
      (fun _ => none) (fun _ => none) (.timeout "t") (.timeout "t") (.timeout "t")).2.2.2.2.1
      (by decide)⟩

/-! ### C8 — Cache-key injectivity analysis

Infrastructure: injectivity of the decimal rendering used by the
Climate key, and a pigeonhole argument showing the truncated-hash
Overpass key cannot be injective. -/

/-- The digit characters produced by the rendering have their expected
code points. -/
theorem digitChar_toNat (d : Nat) (hd : d < 10) : (Char.ofNat (48 + d)).toNat = 48 + d := by
  interval_cases d <;> decide

/-- Every character of `natStrAux` is a decimal digit character. -/
theorem natStrAux_mem (fuel : Nat) : ∀ (n : Nat), ∀ c ∈ natStrAux fuel n,
    ∃ d, d < 10 ∧ c = Char.ofNat (48 + d) := by
  induction fuel with
  | zero => intro n c hc; simp [natStrAux] at hc
  | succ fuel ih =>
      intro n c hc
      by_cases hn : n = 0
      · simp [natStrAux, hn] at hc
      · rw [natStrAux, if_neg hn] at hc
        rcases List.mem_cons.mp hc with rfl | hc
        · exact ⟨n % 10, Nat.mod_lt _ (by norm_num), rfl⟩
        · exact ih _ c hc

/-- Little-endian decimal value of a digit-character list (decoder for
the injectivity proof). -/
def valLE (cs : List Char) : Nat := cs.foldr (fun c acc => (c.toNat - 48) + 10 * acc) 0

/-- The decoder `valLE` inverts `natStrAux` provided the fuel suffices. -/
theorem valLE_natStrAux (fuel : Nat) : ∀ n ≤ fuel, valLE (natStrAux fuel n) = n := by
  induction fuel with
  | zero =>
      intro n hn
      interval_cases n
      rfl
  | succ fuel ih =>
      intro n hn
      by_cases hzero : n = 0
      · simp [natStrAux, hzero, valLE]
      · rw [natStrAux, if_neg hzero]
        have hdiv : n / 10 ≤ fuel := by
          have := Nat.div_lt_self (Nat.pos_of_ne_zero hzero) (by norm_num : 1 < 10)
          omega
        have hrec := ih (n / 10) hdiv
        simp only [valLE, List.foldr_cons] at hrec ⊢
        rw [hrec, digitChar_toNat _ (Nat.mod_lt _ (by norm_num))]
        omega

/-- Decoder for `natStr`. -/
def decodeNat (cs : List Char) : Nat := valLE cs.reverse

/-- The decoder `decodeNat` is a left inverse of `natStr`. -/
theorem decodeNat_natStr (n : Nat) : decodeNat (natStr n) = n := by
  by_cases hn : n = 0
  · subst hn; rfl
  · unfold natStr decodeNat
    rw [if_neg hn, List.reverse_reverse]
    exact valLE_natStrAux n n le_rfl

/-- Injectivity of `natStr`. -/
theorem natStr_inj {m n : Nat} (h : natStr m = natStr n) : m = n := by
  have := congrArg decodeNat h
  rwa [decodeNat_natStr, decodeNat_natStr] at this

/-- The rendering `natStr` never returns the empty list. -/
theorem natStr_ne_nil (n : Nat) : natStr n ≠ [] := by
  by_cases hn : n = 0
  · simp [natStr, hn]
  · unfold natStr
    rw [if_neg hn]
    obtain ⟨m, rfl⟩ : ∃ m, n = m + 1 := ⟨n - 1, by omega⟩
    rw [natStrAux, if_neg hn]
    simp

/-- Every character of `natStr` is a decimal digit character. -/
theorem natStr_mem (n : Nat) : ∀ c ∈ natStr n, ∃ d, d < 10 ∧ c = Char.ofNat (48 + d) := by
  intro c hc
  by_cases hn : n = 0
  · simp [natStr, hn] at hc
    exact ⟨0, by norm_num, by rw [hc]⟩
  · unfold natStr at hc
    rw [if_neg hn, List.mem_reverse] at hc
    exact natStrAux_mem n n c hc

/-- Code-point bound for `natStr` characters: they are digits. -/
theorem natStr_toNat_bound (n : Nat) : ∀ c ∈ natStr n, 48 ≤ c.toNat ∧ c.toNat ≤ 57 := by
  intro c hc
  obtain ⟨d, hd, rfl⟩ := natStr_mem n c hc
  rw [digitChar_toNat d hd]
  omega

/-- Every character of `fracStr` is a decimal digit character. -/
theorem fracStr_toNat_bound (f : Nat) : ∀ c ∈ fracStr f, 48 ≤ c.toNat ∧ c.toNat ≤ 57 := by
  intro c hc
  unfold fracStr at hc
  split at hc
  · simp at hc
    subst hc
    decide
  · split at hc
    · exact natStr_toNat_bound _ c hc
    · split at hc
      · rcases List.mem_cons.mp hc with rfl | hc
        · decide
        · exact natStr_toNat_bound _ c hc
      · exact natStr_toNat_bound _ c hc

set_option maxRecDepth 40000 in
/-- Injectivity of `fracStr` below 100 (checked exhaustively). -/
theorem fracStr_inj : ∀ f < 100, ∀ g < 100, fracStr f = fracStr g → f = g := by decide

/-- Splitting a concatenation at a separator absent from both prefixes
is unambiguous. -/
theorem append_sep_inj (c : Char) :
    ∀ (l1 l2 r1 r2 : List Char), c ∉ l1 → c ∉ l2 →
      l1 ++ c :: r1 = l2 ++ c :: r2 → l1 = l2 ∧ r1 = r2 := by
  intro l1
  induction l1 with
  | nil =>
      intro l2 r1 r2 _ h2 h
      cases l2 with
      | nil => simpa using h
      | cons x xs =>
          simp only [List.nil_append, List.cons_append, List.cons.injEq] at h
          exact absurd (List.mem_cons.mpr (Or.inl h.1)) h2
  | cons y ys ih =>
      intro l2 r1 r2 h1 h2 h
      cases l2 with
      | nil =>
          simp only [List.nil_append, List.cons_append, List.cons.injEq] at h
          exact absurd (List.mem_cons.mpr (Or.inl h.1.symm)) h1
      | cons x xs =>
          simp only [List.cons_append, List.cons.injEq] at h
          have htail := ih xs r1 r2 (fun hm => h1 (List.mem_cons_of_mem _ hm))
            (fun hm => h2 (List.mem_cons_of_mem _ hm)) h.2
          exact ⟨by rw [h.1, htail.1], htail.2⟩

/-- The dot separator does not occur in `natStr`. -/
theorem dot_not_mem_natStr (n : Nat) : '.' ∉ natStr n := by
  intro hc
  have := natStr_toNat_bound n '.' hc
  simp at this

/-- Injectivity of `renderCenti`: distinct numbers of hundredths render
to distinct strings. -/
theorem renderCenti_inj {k1 k2 : ℤ} (h : renderCenti k1 = renderCenti k2) : k1 = k2 := by
  unfold renderCenti at h
  have habs : k1.natAbs = k2.natAbs ∧ (k1 < 0 ↔ k2 < 0) := by
    by_cases h1 : k1 < 0 <;> by_cases h2 : k2 < 0
    · rw [if_pos h1, if_pos h2] at h
      simp only [List.cons_append, List.nil_append, List.cons.injEq] at h
      obtain ⟨hw, hf⟩ := append_sep_inj '.' _ _ _ _ (dot_not_mem_natStr _)
        (dot_not_mem_natStr _) h.2
      refine ⟨?_, by tauto⟩
      have hwv := natStr_inj hw
      have hfv := fracStr_inj _ (Nat.mod_lt _ (by norm_num)) _
        (Nat.mod_lt _ (by norm_num)) hf
      omega
    · rw [if_pos h1, if_neg h2] at h
      simp only [List.cons_append, List.nil_append] at h
      cases hns : natStr (k2.natAbs / 100) with
      | nil => exact absurd hns (natStr_ne_nil _)
      | cons x xs =>
          rw [hns] at h
          simp only [List.cons_append, List.cons.injEq] at h
          have hx := natStr_toNat_bound _ x (by rw [hns]; exact List.mem_cons_self x xs)
          rw [← h.1] at hx
          simp at hx
    · rw [if_neg h1, if_pos h2] at h
      simp only [List.cons_append, List.nil_append] at h
      cases hns : natStr (k1.natAbs / 100) with
      | nil => exact absurd hns (natStr_ne_nil _)
      | cons x xs =>
          rw [hns] at h
          simp only [List.cons_append, List.cons.injEq] at h
          have hx := natStr_toNat_bound _ x (by rw [hns]; exact List.mem_cons_self x xs)
          rw [h.1] at hx
          simp at hx
    · rw [if_neg h1, if_neg h2] at h
      simp only [List.nil_append] at h
      obtain ⟨hw, hf⟩ := append_sep_inj '.' _ _ _ _ (dot_not_mem_natStr _)
        (dot_not_mem_natStr _) h
      refine ⟨?_, by tauto⟩
      have hwv := natStr_inj hw
      have hfv := fracStr_inj _ (Nat.mod_lt _ (by norm_num)) _
        (Nat.mod_lt _ (by norm_num)) hf
      omega
  omega

/-- Every character of `renderCenti` has code point at most 57; in
particular the colon (58) never occurs in it. -/
theorem renderCenti_toNat_bound (k : ℤ) : ∀ c ∈ renderCenti k, c.toNat ≤ 57 := by
  intro c hc
  unfold renderCenti at hc
  rcases List.mem_append.mp hc with hc | hc
  · rcases List.mem_append.mp hc with hc | hc
    · split at hc
      · simp at hc
        subst hc
        decide
      · simp at hc
    · exact (natStr_toNat_bound _ c hc).2
  · rcases List.mem_cons.mp hc with rfl | hc
    · decide
    · exact (fracStr_toNat_bound _ c hc).2

/-- The colon separator does not occur in `renderCenti`. -/
theorem colon_not_mem_renderCenti (k : ℤ) : ':' ∉ renderCenti k := by
  intro hc
  have := renderCenti_toNat_bound k ':' hc
  simp at this

/-- The Climate cache key determines the rounded coordinate pair. -/
theorem climate_cache_key_inj {a1 b1 a2 b2 : ℚ}
    (h : climate_cache_key a1 b1 = climate_cache_key a2 b2) :
    centiRound a1 = centiRound a2 ∧ centiRound b1 = centiRound b2 := by
  unfold climate_cache_key at h
  have hd : "climate:".data ++ (renderCenti (centiRound a1) ++ ':' :: renderCenti (centiRound b1))
      = "climate:".data ++ (renderCenti (centiRound a2) ++ ':' :: renderCenti (centiRound b2)) := by
    have := congrArg String.data h
    simpa using this
  have hbody := List.append_cancel_left hd
  obtain ⟨hA, hB⟩ := append_sep_inj ':' _ _ _ _ (colon_not_mem_renderCenti _)
    (colon_not_mem_renderCenti _) hbody
  exact ⟨renderCenti_inj hA, renderCenti_inj hB⟩

/-- Little-endian base-256 value of a byte list (decoder for the
pigeonhole argument). -/
def ofBytes (l : List Nat) : Nat := l.foldr (fun d acc => d + 256 * acc) 0

/-- Bound for `ofBytes`: it is below `256 ^ length`. -/
theorem ofBytes_lt (l : List Nat) (h : ∀ x ∈ l, x < 256) : ofBytes l < 256 ^ l.length := by
  induction l with
  | nil => simp [ofBytes]
  | cons d t ih =>
      have hd : d < 256 := h d (List.mem_cons_self d t)
      have ht := ih (fun x hx => h x (List.mem_cons_of_mem _ hx))
      have hpow : (256 : Nat) ^ (d :: t).length = 256 * 256 ^ t.length := by
        rw [List.length_cons, pow_succ]
        ring
      simp only [ofBytes, List.foldr_cons] at ht ⊢
      omega

/-- Injectivity of `ofBytes` on byte lists of equal length. -/
theorem ofBytes_inj : ∀ (l1 l2 : List Nat), l1.length = l2.length →
    (∀ x ∈ l1, x < 256) → (∀ x ∈ l2, x < 256) → ofBytes l1 = ofBytes l2 → l1 = l2 := by
  intro l1
  induction l1 with
  | nil =>
      intro l2 hlen _ _ _
      cases l2 with
      | nil => rfl
      | cons e s => simp at hlen
  | cons d t ih =>
      intro l2 hlen hb1 hb2 hv
      cases l2 with
      | nil => simp at hlen
      | cons e s =>
          have hd : d < 256 := hb1 d (List.mem_cons_self d t)
          have he : e < 256 := hb2 e (List.mem_cons_self e s)
          simp only [ofBytes, List.foldr_cons] at hv
          have hde : d = e ∧ (t.foldr (fun d acc => d + 256 * acc) 0)
              = (s.foldr (fun d acc => d + 256 * acc) 0) := by omega
          have hrec := ih s (by simpa using hlen)
            (fun x hx => hb1 x (List.mem_cons_of_mem _ hx))
            (fun x hx => hb2 x (List.mem_cons_of_mem _ hx)) hde.2
          rw [hde.1, hrec]

/-- Each serialized word contributes bytes below 256. -/
theorem wordBytes_lt (w : Nat) : ∀ x ∈ wordBytes w, x < 256 := by
  intro x hx
  simp only [wordBytes, List.mem_cons, List.not_mem_nil, or_false] at hx
  rcases hx with rfl | rfl | rfl | rfl <;> exact Nat.mod_lt _ (by norm_num)

/-- The SHA-256 digest has 32 bytes. -/
theorem sha256Bytes_length (m : List Nat) : (sha256Bytes m).length = 32 := by
  simp [sha256Bytes, wordBytes]

/-- Every SHA-256 digest byte is below 256. -/
theorem sha256Bytes_lt (m : List Nat) : ∀ x ∈ sha256Bytes m, x < 256 := by
  intro x hx
  unfold sha256Bytes at hx
  simp only [List.mem_append] at hx
  rcases hx with ((((((hx | hx) | hx) | hx) | hx) | hx) | hx) | hx <;>
    exact wordBytes_lt _ x hx

/-- Taking `2k` hex characters of a hex dump is the hex dump of the
first `k` bytes. -/
theorem take_hexdigest : ∀ (l : List Nat) (k : Nat),
    (hexdigest l).take (2 * k) = hexdigest (l.take k) := by
  intro l
  induction l with
  | nil => intro k; simp [hexdigest]
  | cons b t ih =>
      intro k
      cases k with
      | zero => simp [hexdigest]
      | succ k =>
          simp only [hexdigest, List.flatMap_cons, byteHex, List.take_succ_cons,
            List.cons_append, List.nil_append] at ih ⊢
          rw [show 2 * (k + 1) = (2 * k + 1) + 1 by ring]
          simp only [List.take_succ_cons]
          rw [ih k]

/-- The Overpass cache key depends only on the first 8 digest bytes:
agreement there forces equal keys. -/
theorem overpass_key_congr {q1 q2 : String}
    (h : (sha256Bytes (utf8Bytes q1)).take 8 = (sha256Bytes (utf8Bytes q2)).take 8) :
    overpass_cache_key q1 = overpass_cache_key q2 := by
  unfold overpass_cache_key
  rw [show (16 : Nat) = 2 * 8 from rfl, take_hexdigest, take_hexdigest, h]

/-- The truncated digest value that determines an Overpass cache key is
bounded by `256 ^ 8`. -/
theorem overpassTruncBound (q : String) :
    ofBytes ((sha256Bytes (utf8Bytes q)).take 8) < 256 ^ 8 := by
  have hlen : ((sha256Bytes (utf8Bytes q)).take 8).length = 8 := by
    rw [List.length_take, sha256Bytes_length]
    omega
  have := ofBytes_lt ((sha256Bytes (utf8Bytes q)).take 8)
    (fun x hx => sha256Bytes_lt _ x (List.take_subset _ _ hx))
  rwa [hlen] at this

/-- The 64-bit value an Overpass cache key is derived from, as an
element of the finite key space. -/
def overpassTrunc (q : String) : Fin (256 ^ 8) :=
  ⟨ofBytes ((sha256Bytes (utf8Bytes q)).take 8), overpassTruncBound q⟩

/-- Unfolding equation for `overpassTrunc`. -/
theorem overpassTrunc_val (q : String) :
    (overpassTrunc q).val = ofBytes ((sha256Bytes (utf8Bytes q)).take 8) := rfl

/-- Claim C8 counterexample (negation of the claim as stated): the
combined injectivity property fails, because the Overpass key keeps only
the first 16 hex characters (64 bits) of the SHA-256 digest: the key
space is finite (`≤ 256^8` possibilities) while there are infinitely
many distinct query strings, so by pigeonhole two distinct queries must
share a key. -/
theorem cache_key_injectivity_cex :
    ¬ ((∀ q1 q2 : String, q1 ≠ q2 → overpass_cache_key q1 ≠ overpass_cache_key q2) ∧
       (∀ a1 b1 a2 b2 : ℚ, (centiRound a1, centiRound b1) ≠ (centiRound a2, centiRound b2) →
          climate_cache_key a1 b1 ≠ climate_cache_key a2 b2) ∧
       (∀ t1 t2 : String, t1 ≠ t2 → canopy_cache_key t1 ≠ canopy_cache_key t2) ∧
       (∀ (q t : String) (a b : ℚ),
          overpass_cache_key q ≠ climate_cache_key a b ∧
          overpass_cache_key q ≠ canopy_cache_key t ∧
          climate_cache_key a b ≠ canopy_cache_key t)) := by
  rintro ⟨hinj, -, -, -⟩
  have hf : Function.Injective overpassTrunc := by
    intro x y hxy
    have hv := congrArg Fin.val hxy
    rw [overpassTrunc_val, overpassTrunc_val] at hv
    have htake := ofBytes_inj ((sha256Bytes (utf8Bytes x)).take 8)
      ((sha256Bytes (utf8Bytes y)).take 8)
      (by rw [List.length_take, sha256Bytes_length, List.length_take, sha256Bytes_length])
      (fun z hz => sha256Bytes_lt _ z (List.take_subset _ _ hz))
      (fun z hz => sha256Bytes_lt _ z (List.take_subset _ _ hz)) hv
    by_contra hne
    exact hinj x y hne (overpass_key_congr htake)
  obtain ⟨x, y, hne, heq⟩ := Finite.exists_ne_map_eq_of_infinite overpassTrunc
  exact hne (hf heq)

/-- Claim C8 amended: the key derivation is injective over logically
distinct requests in every respect except Overpass-to-Overpass:
distinct rounded climate coordinate pairs derive distinct climate keys,
distinct canopy quadkeys derive distinct canopy keys, and keys of
different handlers never collide (their prefixes `overpass:`,
`climate:`, `canopy:` differ); but two distinct Overpass query strings
are not guaranteed distinct keys, because the key keeps only 64 bits of
the query hash. -/
theorem cache_key_injectivity_amended
    (a1 b1 a2 b2 : ℚ) (t1 t2 q : String)
    (hab : (centiRound a1, centiRound b1) ≠ (centiRound a2, centiRound b2))
    (ht : t1 ≠ t2) :
    climate_cache_key a1 b1 ≠ climate_cache_key a2 b2 ∧
    canopy_cache_key t1 ≠ canopy_cache_key t2 ∧
    overpass_cache_key q ≠ climate_cache_key a1 b1 ∧
    overpass_cache_key q ≠ canopy_cache_key t1 ∧
    climate_cache_key a1 b1 ≠ canopy_cache_key t1 := by
  refine ⟨?_, ?_, ?_, ?_, ?_⟩
  · intro h
    obtain ⟨hA, hB⟩ := climate_cache_key_inj h
    exact hab (by rw [hA, hB])
  · intro h
    apply ht
    have hd := congrArg String.data h
    simp only [canopy_cache_key, String.data_append] at hd
    exact String.ext (List.append_cancel_left hd)
  · intro h
    have hd := congrArg (fun s : String => s.data.head?) h
    simp only [overpass_cache_key, climate_cache_key, String.data_append] at hd
    simp at hd
  · intro h
    have hd := congrArg (fun s : String => s.data.head?) h
    simp only [overpass_cache_key, canopy_cache_key, String.data_append] at hd
    simp at hd
  · intro h
    have hd := congrArg (fun s : String => s.data.get? 1) h
    simp only [climate_cache_key, canopy_cache_key, String.data_append] at hd
    simp at hd

/-- Witness for `cache_key_injectivity_amended` at concrete distinct
requests. -/
theorem cache_key_injectivity_amended_witness :
    climate_cache_key (mkRat 1 1) 0 ≠ climate_cache_key (mkRat 2 1) 0 ∧
    canopy_cache_key "0" ≠ canopy_cache_key "1" ∧
    overpass_cache_key "x" ≠ climate_cache_key (mkRat 1 1) 0 ∧
    overpass_cache_key "x" ≠ canopy_cache_key "0" ∧
    climate_cache_key (mkRat 1 1) 0 ≠ canopy_cache_key "0" :=
  cache_key_injectivity_amended (mkRat 1 1) 0 (mkRat 2 1) 0 "0" "1" "x"
    (by decide) (by decide)

end SolarSim
